import Mathlib

/-!
Verification of the Tizen videohole video-player plugin
(`packages/video_player_videohole/tizen/src`): a shallow embedding of the
DRM manager, the two playback backends (`MediaPlayer`, `PlusPlayer`) and
the event fan-out of `VideoPlayer`, with theorems about seek gating,
dispose ordering and idempotence, the license-challenge protocol, and the
buffering / initialized notifications.

Native calls are modelled by passing their outcomes in explicitly as
environment records; heap pointers become `Option` values; every traced
native side effect is recorded as an `Act`; outbound notifications are
recorded as `Event`s.
-/

namespace Videohole

/-- The typed error thrown by player operations (`video_player_error.h`):
an error code string plus an error message string. -/
structure VideoPlayerError where
  code : String
  message : String
deriving DecidableEq, Repr

/-- Stands in for the opaque engine-provided `get_error_message(ret)` text. -/
def engineErrorMessage : String := "engine error"

/-- Native-call and resource side effects recorded in execution traces. -/
inductive Act where
  /-- `g_source_remove(source_id_)` cancelling a scheduled idle task. -/
  | gSourceRemove (id : Nat)
  /-- `DMGRSetData(session, "Finalize", ...)`. -/
  | dmFinalize
  /-- `DMGRReleaseDRMSession(session)`. -/
  | dmReleaseSession
  /-- `DMGRSetDRMLocalMode()`. -/
  | dmSetLocalMode
  /-- `player_unprepare(player_)` (media player backend). -/
  | playerUnprepare
  /-- `player_destroy(player_)` (media player backend). -/
  | playerDestroy
  /-- `player_start(player_)` (media player backend). -/
  | playerStart
  /-- `CloseMediaPlayerProxy(player_proxy_)`. -/
  | closeMediaProxy
  /-- `PlusPlayerProxy::UnregisterListener(player_)`. -/
  | unregisterListener
  /-- `PlusPlayerProxy::DestroyPlayer(player_)`. -/
  | destroyPlusPlayer
  /-- `PlusPlayerProxy::Start(player_)`. -/
  | plusStart
  /-- `PlusPlayerProxy::Resume(player_)`. -/
  | plusResume
  /-- `DrmLicenseHelper::DoTransactionTZ(...)` — the license-server network
  transaction. -/
  | netTransact
  /-- Invocation of the configured challenge callback (delegate path). -/
  | invokeDelegate
  /-- `g_idle_add(InstallEMEKey, self)` scheduling the deferred install. -/
  | scheduleInstall
  /-- `DMGRSetData(session, "install_eme_key", &license_param_)`. -/
  | installEmeKey
  /-- `free(...)` of the challenge-response buffer. -/
  | freeResponse
deriving DecidableEq, Repr

/-- Outbound notifications sent on the event channel (`VideoPlayer::Send*`). -/
inductive Event where
  | initialized (duration width height : Int)
  | bufferingStart
  | bufferingUpdate (value : Int)
  | bufferingEnd
  | subtitleUpdate (duration : Int) (text : String)
  | completed
  | error (code message : String)
deriving DecidableEq, Repr

/-- Result codes of the DRM-manager native layer as used by
`drm_manager.cc` (`DM_ERROR_NONE`, `DM_ERROR_INVALID_SESSION`,
`DM_ERROR_INTERNAL_ERROR`, plus opaque other codes). -/
inductive DmError where
  | noError
  | invalidSession
  | internalError
  | other (code : Nat)
deriving DecidableEq, Repr

namespace DrmManager

/-- State of one `DrmManager` (`drm_manager.h` members plus the
`source_id_` / `license_param_` members used by `drm_manager.cc`).
Opaque native pointers are modelled as `Option Nat` (`none` = null);
`license_param2` is the response buffer stored in `license_param_.param2`,
modelled by its byte contents. -/
structure State where
  drm_session : Option Nat := none
  drm_manager_proxy : Option Nat := none
  drm_type : Nat := 0
  license_server_url : String := ""
  challenge_callback : Option Nat := none
  initialized : Bool := false
  source_id : Nat := 0
  license_param2 : Option (List Nat) := none
deriving DecidableEq, Repr

/-- Outcomes of the native calls made by `DrmManager::ReleaseDrmSession`. -/
structure ReleaseEnv where
  finalizeOk : Bool := true
  releaseOk : Bool := true
deriving DecidableEq, Repr

/-- `DrmManager::ReleaseDrmSession` (drm_manager.cc 92-116): cancel a
pending idle task, finalize the session if initialized (best effort),
release the session, clearing the handle only when the release call
succeeds. -/
def releaseDrmSession (env : ReleaseEnv) (st : State) : State × List Act :=
  let removeActs := if st.source_id > 0 then [Act.gSourceRemove st.source_id] else []
  let st := { st with source_id := 0 }
  match st.drm_session with
  | none => (st, removeActs)
  | some _ =>
    let finActs := if st.initialized then [Act.dmFinalize] else []
    let st :=
      if st.initialized && env.finalizeOk then { st with initialized := false } else st
    if env.releaseOk then
      ({ st with drm_session := none }, removeActs ++ finActs ++ [Act.dmReleaseSession])
    else
      (st, removeActs ++ finActs ++ [Act.dmReleaseSession])

/-- Outcomes of the native calls made by `DrmManager::CreateDrmSession`. -/
structure CreateSessionEnv where
  /-- Result of `DMGRCreateDRMSession` (`none` = null handle returned). -/
  createdSession : Option Nat := some 1
  /-- Result of `DMGRSetData(session, "error_event_callback", ...)`. -/
  errorCbRet : DmError := .noError
  releaseEnv : ReleaseEnv := {}
deriving DecidableEq, Repr

/-- `DrmManager::CreateDrmSession` (drm_manager.cc 45-78). -/
def createDrmSession (env : CreateSessionEnv) (st : State) (drm_type : Nat)
    (local_mode : Bool) : Bool × State × List Act :=
  match st.drm_manager_proxy with
  | none => (false, st, [])
  | some _ =>
    let modeActs := if local_mode then [Act.dmSetLocalMode] else []
    let st := { st with drm_type := drm_type }
    match env.createdSession with
    | none => (false, st, modeActs)
    | some s =>
      let st := { st with drm_session := some s }
      if env.errorCbRet = .noError then (true, st, modeActs)
      else
        let rel := releaseDrmSession env.releaseEnv st
        (false, rel.1, modeActs ++ rel.2)

/-- Outcomes of the three `DMGRSetData` calls made by the private
`DrmManager::SetChallenge(media_url)` (drm_manager.cc 168-201). -/
structure SetChallengeEnv where
  emeRequestKeyCbRet : DmError := .noError
  setManifestRet : DmError := .noError
  initializeRet : DmError := .noError
deriving DecidableEq, Repr

/-- The private `DrmManager::SetChallenge(media_url)`
(drm_manager.cc 168-201): registers the challenge-data callback, sets the
manifest URL, then sends `Initialize`, marking the session initialized
on success. -/
def setChallengeCore (env : SetChallengeEnv) (st : State) : DmError × State :=
  match st.drm_session with
  | none => (.invalidSession, st)
  | some _ =>
    if env.emeRequestKeyCbRet ≠ .noError then (env.emeRequestKeyCbRet, st)
    else if env.setManifestRet ≠ .noError then (env.setManifestRet, st)
    else if env.initializeRet ≠ .noError then (env.initializeRet, st)
    else (.noError, { st with initialized := true })

/-- `DrmManager::SetChallenge(media_url, license_server_url)`
(drm_manager.cc 80-84): stores the URL, then runs the private
`SetChallenge`. -/
def setChallengeUrl (env : SetChallengeEnv) (st : State)
    (license_server_url : String) : Bool × State :=
  let st := { st with license_server_url := license_server_url }
  let r := setChallengeCore env st
  (r.1 = .noError, r.2)

/-- `DrmManager::SetChallenge(media_url, callback)` (drm_manager.cc 86-90):
stores the callback (modelled by an identifying token), then runs the
private `SetChallenge`. -/
def setChallengeCallback (env : SetChallengeEnv) (st : State)
    (callback : Nat) : Bool × State :=
  let st := { st with challenge_callback := some callback }
  let r := setChallengeCore env st
  (r.1 = .noError, r.2)

/-- `DrmManager::GetDrmHandle` (drm_manager.cc 118-133); `getDataOk` is
the outcome of `DMGRGetData(session, "drm_handle", handle)`. -/
def getDrmHandle (getDataOk : Bool) (st : State) : Bool :=
  match st.drm_session with
  | none => false
  | some _ => getDataOk

/-- Outcome of `DrmLicenseHelper::DoTransactionTZ` as observed by
`OnChallengeData`: whether the call returned `DRM_SUCCESS`, and the
response buffer it produced (`none` = null `response_data` pointer; the
out-parameter `response_len` is the length of the list). -/
structure NetOutcome where
  success : Bool := true
  respData : Option (List Nat) := none
deriving DecidableEq, Repr

/-- Environment of one `DrmManager::OnChallengeData` invocation: the
network outcome (used only on the license-server path), what the
configured challenge callback writes through its `response` /
`response_len` out-parameters (`none` = leaves the pointer null), and
the source id returned by `g_idle_add` (`0` = failure). -/
structure ChallengeEnv where
  net : NetOutcome := {}
  delegateResp : Option (List Nat) := none
  idleAddId : Nat := 1
deriving DecidableEq, Repr

/-- The response obtained by `OnChallengeData`'s source-selection branches
before the null / zero-length check: network result if a license-server
URL is configured, the delegate's output if a callback is configured,
`none` otherwise. -/
def obtainedResponse (env : ChallengeEnv) (st : State) : Option (List Nat) :=
  if st.license_server_url ≠ "" then
    if env.net.success then env.net.respData else none
  else
    match st.challenge_callback with
    | some _ => env.delegateResp
    | none => none

/-- `DrmManager::OnChallengeData` (drm_manager.cc 203-255): obtain a
response via the license server, else via the configured callback, else
fail; a failed transaction, null response or zero-length response is
`DM_ERROR_INTERNAL_ERROR`; on success store the response in
`license_param_` and schedule `InstallEMEKey` on the idle queue, freeing
the response immediately if scheduling fails. -/
def onChallengeData (env : ChallengeEnv) (st : State) (session_id : Nat)
    (message : List Nat) : DmError × State × List Act :=
  let installStage := fun (resp : List Nat) (acts : List Act) =>
    let st := { st with license_param2 := some resp, source_id := env.idleAddId }
    if env.idleAddId = 0 then
      (DmError.internalError, st, acts ++ [Act.freeResponse])
    else
      (DmError.noError, st, acts ++ [Act.scheduleInstall])
  if st.license_server_url ≠ "" then
    match env.net.success, env.net.respData with
    | true, some resp =>
      if resp.length = 0 then (.internalError, st, [Act.netTransact])
      else installStage resp [Act.netTransact]
    | true, none => (.internalError, st, [Act.netTransact])
    | false, _ => (.internalError, st, [Act.netTransact])
  else
    match st.challenge_callback with
    | some _ =>
      match env.delegateResp with
      | some resp =>
        if resp.length = 0 then (.internalError, st, [Act.invokeDelegate])
        else installStage resp [Act.invokeDelegate]
      | none => (.internalError, st, [Act.invokeDelegate])
    | none => (.internalError, st, [])

/-- Outcome of the `DMGRSetData(session, "install_eme_key", ...)` call
made by the deferred install task. -/
structure InstallEnv where
  installRet : DmError := .noError
deriving DecidableEq, Repr

/-- `DrmManager::InstallEMEKey` idle-task callback (drm_manager.cc
262-285): with no stored response it returns `false` doing nothing;
otherwise it issues the install call (its result is only logged) and then
frees the response buffer, returning `false` (remove the idle source). -/
def installEMEKey (env : InstallEnv) (st : State) : Bool × State × List Act :=
  match st.license_param2 with
  | none => (false, st, [])
  | some _ => (false, st, [Act.installEmeKey, Act.freeResponse])

end DrmManager

/-- The Tizen `player_display_rotation_e` values. -/
inductive Rotation where
  | rotNone
  | rot90
  | rot180
  | rot270
deriving DecidableEq, Repr

/-- The Tizen `player_state_e` lifecycle states of the media player
backend. -/
inductive PlayerState where
  | stateNone
  | idle
  | ready
  | playing
  | paused
deriving DecidableEq, Repr

/-- Modelled from the spec: the `plusplayer::State` lifecycle enumeration
used by plus_player.cc. Its defining header is not part of this
repository; the ordering below follows the spec's normalized state order
(none < idle/created < track-source-ready < ready, with playing and
paused past ready) and is consistent with every comparison that
plus_player.cc performs on it. -/
inductive PlusState where
  | kNone
  | kIdle
  | kTypeFinderReady
  | kTrackSourceReady
  | kReady
  | kPlaying
  | kPaused
deriving DecidableEq, Repr

/-- Numeric rank of a `PlusState`, giving the enumeration's total order
used by the `<` / `>=` comparisons in plus_player.cc. -/
def PlusState.rank : PlusState → Nat
  | .kNone => 0
  | .kIdle => 1
  | .kTypeFinderReady => 2
  | .kTrackSourceReady => 3
  | .kReady => 4
  | .kPlaying => 5
  | .kPaused => 6

namespace MediaPlayer

/-- State of one `MediaPlayer` instance (media_player.h members).
`player` is the native `player_h` handle, `player_proxy` the dlopen
handle member, `on_seek_completed` the pending seek-completion callback
(modelled by an identifying token), and `drm_manager` the optionally
owned `DrmManager`. -/
structure State where
  player : Option Nat := none
  player_proxy : Option Nat := none
  player_id : Int := -1
  is_initialized : Bool := false
  is_buffering : Bool := false
  on_seek_completed : Option Nat := none
  drm_manager : Option DrmManager.State := none
deriving DecidableEq, Repr

/-- The engine-teardown block of `MediaPlayer::Dispose`
(media_player.cc 147-154): when the engine handle is live, unprepare it
if initialized, then destroy it. -/
def engineTeardownActs (st : State) : List Act :=
  match st.player with
  | some _ => (if st.is_initialized then [Act.playerUnprepare] else []) ++ [Act.playerDestroy]
  | none => []

/-- The proxy-closing block of `MediaPlayer::Dispose`
(media_player.cc 156-159). -/
def proxyCloseActs (st : State) : List Act :=
  match st.player_proxy with
  | some _ => [Act.closeMediaProxy]
  | none => []

/-- The DRM-release block of `MediaPlayer::Dispose`
(media_player.cc 161-164): release the DRM session when a DRM manager is
owned. -/
def drmReleaseActs (env : DrmManager.ReleaseEnv) (st : State) : List Act :=
  match st.drm_manager with
  | some d => (DrmManager.releaseDrmSession env d).2
  | none => []

/-- `MediaPlayer::Dispose` (media_player.cc 144-165): if the engine
handle is live, unprepare (when initialized) and destroy it and clear
the handle; close the proxy if open; finally release the DRM session if
a DRM manager is owned. The trace is the concatenation of the three
blocks in source order. -/
def dispose (env : DrmManager.ReleaseEnv) (st : State) : State × List Act :=
  ({ st with
      player := none,
      is_initialized := if st.player.isSome then false else st.is_initialized,
      player_proxy := none,
      drm_manager := st.drm_manager.map fun d => (DrmManager.releaseDrmSession env d).1 },
    engineTeardownActs st ++ proxyCloseActs st ++ drmReleaseActs env st)

/-- `MediaPlayer::SeekTo` (media_player.cc 242-253): stores the
completion callback unconditionally, then issues
`player_set_play_position`; on native failure the callback is cleared
and a typed error is thrown. `setPlayPositionOk` is the native call's
outcome. -/
def seekTo (st : State) (callback : Nat) (setPlayPositionOk : Bool) :
    State × Except VideoPlayerError Unit :=
  let st := { st with on_seek_completed := some callback }
  if setPlayPositionOk then (st, .ok ())
  else ({ st with on_seek_completed := none },
    .error ⟨"player_set_play_position failed", engineErrorMessage⟩)

/-- `MediaPlayer::OnSeekCompleted` (media_player.cc 417-425): invoke and
clear the pending callback if set; returns the callback that fired. -/
def onSeekCompleted (st : State) : State × Option Nat :=
  match st.on_seek_completed with
  | some cb => ({ st with on_seek_completed := none }, some cb)
  | none => (st, none)

/-- `MediaPlayer::Play` (media_player.cc 178-194): query the engine
state; when the query succeeds and the state is neither paused nor
ready, return without doing anything; otherwise issue `player_start`,
throwing a typed error if it fails. `engState` is the state the engine
reports, `getStateOk` / `startOk` the native calls' outcomes. -/
def play (st : State) (engState : PlayerState) (getStateOk startOk : Bool) :
    Except VideoPlayerError Unit × List Act :=
  if getStateOk ∧ engState ≠ .paused ∧ engState ≠ .ready then
    (.ok (), [])
  else if startOk then (.ok (), [Act.playerStart])
  else (.error ⟨"player_start failed", engineErrorMessage⟩, [Act.playerStart])

/-- `MediaPlayer::GetVideoSize` (media_player.cc 276-299): read the
native video size and the display rotation (each can fail with a typed
error) and swap width and height exactly when the rotation is 90° or
270°. -/
def getVideoSize (sizeOk : Bool) (w h : Int) (rotationOk : Bool)
    (rotation : Rotation) : Except VideoPlayerError (Int × Int) :=
  if ¬sizeOk then .error ⟨"player_get_video_size failed", engineErrorMessage⟩
  else if ¬rotationOk then
    .error ⟨"player_get_display_rotation failed", engineErrorMessage⟩
  else if rotation = .rot90 ∨ rotation = .rot270 then .ok (h, w)
  else .ok (w, h)

end MediaPlayer

namespace PlusPlayer

/-- State of one `PlusPlayer` instance (plus_player.h members). -/
structure State where
  player : Option Nat := none
  is_initialized : Bool := false
  is_buffering : Bool := false
  on_seek_completed : Option Nat := none
  drm_manager : Option DrmManager.State := none
deriving DecidableEq, Repr

/-- The engine-teardown block of `PlusPlayer::Dispose`
(plus_player.cc 75-80): when the engine handle is live, unregister the
listener, then destroy the player. -/
def engineTeardownActs (st : State) : List Act :=
  match st.player with
  | some _ => [Act.unregisterListener, Act.destroyPlusPlayer]
  | none => []

/-- The DRM-release block of `PlusPlayer::Dispose`
(plus_player.cc 82-85). -/
def drmReleaseActs (env : DrmManager.ReleaseEnv) (st : State) : List Act :=
  match st.drm_manager with
  | some d => (DrmManager.releaseDrmSession env d).2
  | none => []

/-- `PlusPlayer::Dispose` (plus_player.cc 72-86): if the engine handle is
live, unregister the listener, destroy the player and clear the handle;
then release the DRM session if a DRM manager is owned. The trace is the
concatenation of the two blocks in source order. -/
def dispose (env : DrmManager.ReleaseEnv) (st : State) : State × List Act :=
  ({ st with
      player := none,
      drm_manager := st.drm_manager.map fun d => (DrmManager.releaseDrmSession env d).1 },
    engineTeardownActs st ++ drmReleaseActs env st)

/-- `PlusPlayer::SeekTo` (plus_player.cc 178-199): fail if the player is
not created; fail with "already seeking" if a completion callback is
still pending; below ready fail with "not ready"; otherwise store the
callback and issue the native seek, clearing the callback again if the
native call fails. `engState` is the state `GetState` reports and
`seekOk` the native seek outcome. -/
def seekTo (st : State) (callback : Nat) (engState : PlusState)
    (seekOk : Bool) : State × Except VideoPlayerError Unit :=
  match st.player with
  | none => (st, .error ⟨"Invalid PlusPlayer", "PlusPlayer is not created"⟩)
  | some _ =>
    match st.on_seek_completed with
    | some _ => (st, .error ⟨"Invalid Operation", "PlusPlayer is already seeking"⟩)
    | none =>
      if PlusState.rank .kReady ≤ engState.rank then
        let st := { st with on_seek_completed := some callback }
        if seekOk then (st, .ok ())
        else ({ st with on_seek_completed := none },
          .error ⟨"Seek failed", "PlusPlayer failed to seek"⟩)
      else (st, .error ⟨"Invalid State", "PlusPlayer is not ready"⟩)

/-- `PlusPlayer::OnSeekCompleted` (plus_player.cc 370-378): invoke and
clear the pending callback if set; returns the callback that fired. -/
def onSeekCompleted (st : State) : State × Option Nat :=
  match st.on_seek_completed with
  | some cb => ({ st with on_seek_completed := none }, some cb)
  | none => (st, none)

/-- `PlusPlayer::Play` (plus_player.cc 107-129): fail if the player is
not created; fail with a typed "Invalid State" error when the engine
state is below ready; start from ready, resume from paused, and fall
through (returning normally with no engine command) in any other state
at or past ready. -/
def play (st : State) (engState : PlusState) (startOk resumeOk : Bool) :
    Except VideoPlayerError Unit × List Act :=
  match st.player with
  | none => (.error ⟨"Invalid PlusPlayer", "PlusPlayer is not created"⟩, [])
  | some _ =>
    if engState.rank < PlusState.rank .kReady then
      (.error ⟨"Invalid State", "PlusPlayer is not ready"⟩, [])
    else if engState = .kReady then
      if startOk then (.ok (), [Act.plusStart])
      else (.error ⟨"Start failed", "PlusPlayer failed to start"⟩, [Act.plusStart])
    else if engState = .kPaused then
      if resumeOk then (.ok (), [Act.plusResume])
      else (.error ⟨"Resume failed", "PlusPlayer failed to resume playing"⟩,
        [Act.plusResume])
    else (.ok (), [])

end PlusPlayer

namespace DrmManager

/-- The `DrmManager` constructor (drm_manager.cc 21-33): open and
initialize the dlopen proxy, leaving `drm_manager_proxy_` null when
either step fails. `proxyOk` collapses the two native outcomes. -/
def mkState (proxyOk : Bool) : State :=
  { drm_manager_proxy := if proxyOk then some 1 else none }

end DrmManager

/-- Token standing for the `OnLicenseChallenge` lambda that both backends
register as the challenge callback when no license-server URL is given. -/
def licenseChallengeToken : Nat := 1

namespace MediaPlayer

/-- Outcomes of the native calls made by `MediaPlayer::SetDrm`. -/
structure SetDrmEnv where
  drmProxyOk : Bool := true
  createSession : DrmManager.CreateSessionEnv := {}
  getDataOk : Bool := true
  setDrmHandleOk : Bool := true
  initCompleteCbOk : Bool := true
  initDataCbOk : Bool := true
  challengeEnv : DrmManager.SetChallengeEnv := {}
deriving DecidableEq, Repr

/-- `MediaPlayer::SetDrm` (media_player.cc 347-391): construct a
`DrmManager`, create a session in non-local mode, bind its handle into
the player, register the two DRM callbacks, and configure the challenge
source — the `OnLicenseChallenge` delegate when the license-server URL
is empty, the URL otherwise. Every failure throws a typed error. -/
def setDrm (env : SetDrmEnv) (st : State) (drm_type : Nat)
    (license_server_url : String) : State × Except VideoPlayerError Unit :=
  let d := DrmManager.mkState env.drmProxyOk
  let r := DrmManager.createDrmSession env.createSession d drm_type false
  let d := r.2.1
  let st := { st with drm_manager := some d }
  if ¬r.1 then (st, .error ⟨"Drm error", "Failed to create drm session"⟩)
  else if ¬DrmManager.getDrmHandle env.getDataOk d then
    (st, .error ⟨"Drm error", "Failed to get drm handle"⟩)
  else if ¬env.setDrmHandleOk then
    (st, .error ⟨"player_set_drm_handle failed", engineErrorMessage⟩)
  else if ¬env.initCompleteCbOk then
    (st, .error ⟨"player_set_drm_init_complete_cb failed", engineErrorMessage⟩)
  else if ¬env.initDataCbOk then
    (st, .error ⟨"player_set_drm_init_data_cb failed", engineErrorMessage⟩)
  else if license_server_url = "" then
    let c := DrmManager.setChallengeCallback env.challengeEnv d licenseChallengeToken
    let st := { st with drm_manager := some c.2 }
    if c.1 then (st, .ok ()) else (st, .error ⟨"Drm error", "Failed to set challenge"⟩)
  else
    let c := DrmManager.setChallengeUrl env.challengeEnv d license_server_url
    let st := { st with drm_manager := some c.2 }
    if c.1 then (st, .ok ()) else (st, .error ⟨"Drm error", "Failed to set challenge"⟩)

/-- Outcomes of the native calls made by `MediaPlayer::Create`.
`displayErr` collapses `MediaPlayer::SetDisplay` (window-geometry dlopen
and dlsym, `player_set_ecore_wl_display`, `player_set_display_mode`) into
the typed error it throws, if any. -/
structure CreateEnv where
  playerCreateOk : Bool := true
  newHandle : Nat := 1
  proxyOpenOk : Bool := true
  proxyInitOk : Bool := true
  setDrmEnv : SetDrmEnv := {}
  displayErr : Option VideoPlayerError := none
  roiOk : Bool := true
  setUriOk : Bool := true
  setVisibleOk : Bool := true
  bufferingCbOk : Bool := true
  completedCbOk : Bool := true
  interruptedCbOk : Bool := true
  errorCbOk : Bool := true
  subtitleCbOk : Bool := true
  prepareOk : Bool := true
  nextPlayerId : Int := 1
deriving DecidableEq, Repr

/-- `MediaPlayer::Create` (media_player.cc 53-142): throws at once if the
engine handle already exists; otherwise creates the handle, opens the
proxy, runs DRM setup when `drm_type ≠ 0`, binds display and ROI, sets
the URI, registers the five player callbacks and starts async
preparation, returning the fresh player id. -/
def create (env : CreateEnv) (st : State) (drm_type : Nat)
    (license_server_url : String) : State × Except VideoPlayerError Int :=
  if st.player.isSome then
    (st, .error ⟨"Operation failed", "Media player has already been created"⟩)
  else if ¬env.playerCreateOk then
    (st, .error ⟨"player_create failed", engineErrorMessage⟩)
  else
    let st := { st with player := some env.newHandle }
    if ¬env.proxyOpenOk then
      (st, .error ⟨"dlopen failed", "Cannot open dynamic library of media player"⟩)
    else if ¬env.proxyInitOk then
      (st, .error ⟨"dlsym failed",
        "Cannot get private api of media player from dynamic library"⟩)
    else
      let dr :=
        if drm_type ≠ 0 then setDrm env.setDrmEnv st drm_type license_server_url
        else (st, .ok ())
      let st := dr.1
      match dr.2 with
      | .error e => (st, .error e)
      | .ok () =>
        match env.displayErr with
        | some e => (st, .error e)
        | none =>
          if ¬env.roiOk then
            (st, .error ⟨"player_set_display_roi_area failed", engineErrorMessage⟩)
          else if ¬env.setUriOk then
            (st, .error ⟨"player_set_uri failed", engineErrorMessage⟩)
          else if ¬env.setVisibleOk then
            (st, .error ⟨"player_set_display_visible failed", engineErrorMessage⟩)
          else if ¬env.bufferingCbOk then
            (st, .error ⟨"player_set_buffering_cb failed", engineErrorMessage⟩)
          else if ¬env.completedCbOk then
            (st, .error ⟨"player_set_completed_cb failed", engineErrorMessage⟩)
          else if ¬env.interruptedCbOk then
            (st, .error ⟨"player_set_interrupted_cb failed", engineErrorMessage⟩)
          else if ¬env.errorCbOk then
            (st, .error ⟨"player_set_error_cb failed", engineErrorMessage⟩)
          else if ¬env.subtitleCbOk then
            (st, .error ⟨"player_set_subtitle_updated_cb failed", engineErrorMessage⟩)
          else if ¬env.prepareOk then
            (st, .error ⟨"player_prepare_async failed", engineErrorMessage⟩)
          else
            ({ st with player_id := env.nextPlayerId }, .ok env.nextPlayerId)

end MediaPlayer

namespace PlusPlayer

/-- Outcomes of the native calls made by `PlusPlayer::SetDrm`. -/
structure SetDrmEnv where
  drmProxyOk : Bool := true
  createSession : DrmManager.CreateSessionEnv := {}
  getDataOk : Bool := true
  challengeEnv : DrmManager.SetChallengeEnv := {}
deriving DecidableEq, Repr

/-- `PlusPlayer::SetDrm` (plus_player.cc 295-344): construct a
`DrmManager`, create a session in local mode, fetch its handle, hand the
DRM property to the plusplayer proxy (a void call), and configure the
challenge source — the `OnLicenseChallenge` delegate when the
license-server URL is empty, the URL otherwise. -/
def setDrm (env : SetDrmEnv) (st : State) (drm_type : Nat)
    (license_server_url : String) : State × Except VideoPlayerError Unit :=
  let d := DrmManager.mkState env.drmProxyOk
  let r := DrmManager.createDrmSession env.createSession d drm_type true
  let d := r.2.1
  let st := { st with drm_manager := some d }
  if ¬r.1 then (st, .error ⟨"Drm error", "Failed to create drm session"⟩)
  else if ¬DrmManager.getDrmHandle env.getDataOk d then
    (st, .error ⟨"Drm error", "Failed to get drm handle"⟩)
  else if license_server_url = "" then
    let c := DrmManager.setChallengeCallback env.challengeEnv d licenseChallengeToken
    let st := { st with drm_manager := some c.2 }
    if c.1 then (st, .ok ()) else (st, .error ⟨"Drm error", "Failed to set challenge"⟩)
  else
    let c := DrmManager.setChallengeUrl env.challengeEnv d license_server_url
    let st := { st with drm_manager := some c.2 }
    if c.1 then (st, .ok ()) else (st, .error ⟨"Drm error", "Failed to set challenge"⟩)

/-- Outcomes of the native calls made by `PlusPlayer::Create`. -/
structure CreateEnv where
  /-- Result of `PlusPlayerProxy::CreatePlayer` (`none` = null). -/
  createdPlayer : Option Nat := some 1
  openOk : Bool := true
  appIdOk : Bool := true
  setDrmEnv : SetDrmEnv := {}
  screenInfoOk : Bool := true
  setDisplayOk : Bool := true
  setDisplayModeOk : Bool := true
  roiOk : Bool := true
  prepareAsyncOk : Bool := true
  newPlayerId : Int := 1
deriving DecidableEq, Repr

/-- `PlusPlayer::Create` (plus_player.cc 21-70): creates a fresh engine
handle (with no check that one already exists), opens the URI, sets the
app id, registers the listener, runs DRM setup when `drm_type ≠ 0`,
binds display and ROI, and starts async preparation, returning a fresh
player id. -/
def create (env : CreateEnv) (st : State) (drm_type : Nat)
    (license_server_url : String) : State × Except VideoPlayerError Int :=
  match env.createdPlayer with
  | none => (st, .error ⟨"Create failed", "Failed to create PlusPlayer"⟩)
  | some h =>
    let st := { st with player := some h }
    if ¬env.openOk then
      (st, .error ⟨"Open failed", "PlusPlayer failed to open video"⟩)
    else if ¬env.appIdOk then
      (st, .error ⟨"app_manager_get_app_id failed", engineErrorMessage⟩)
    else
      let dr :=
        if drm_type ≠ 0 then setDrm env.setDrmEnv st drm_type license_server_url
        else (st, .ok ())
      let st := dr.1
      match dr.2 with
      | .error e => (st, .error e)
      | .ok () =>
        if ¬env.screenInfoOk then
          (st, .error ⟨"PlusPlayer error", "Could not obtain the screen size"⟩)
        else if ¬env.setDisplayOk then
          (st, .error ⟨"PlusPlayer error", "Failed to set display"⟩)
        else if ¬env.setDisplayModeOk then
          (st, .error ⟨"PlusPlayer error", "Failed to set display mode"⟩)
        else if ¬env.roiOk then
          (st, .error ⟨"SetDisplayRoi failed", "PlusPlayer failed to set display roi"⟩)
        else if ¬env.prepareAsyncOk then
          (st, .error ⟨"PrepareAsync failed", "PlusPlayer failed to prepare async"⟩)
        else (st, .ok env.newPlayerId)

end PlusPlayer

/-- The buffering-callback body shared verbatim by
`MediaPlayer::OnBuffering` (media_player.cc 402-415),
`PlusPlayer::OnBuffering` (plus_player.cc 355-368) and
`VideoPlayer::OnBuffering` (video_player.cc 501-514): at 100 percent
send `bufferingEnd` and clear the flag; otherwise if not already
buffering and the percent is at most 5 send `bufferingStart` and set the
flag; otherwise send `bufferingUpdate(percent)`. Returns the new
`is_buffering_` flag and the events sent. -/
def bufferingStep (is_buffering : Bool) (percent : Int) : Bool × List Event :=
  if percent = 100 then (false, [Event.bufferingEnd])
  else if ¬is_buffering ∧ percent ≤ 5 then (true, [Event.bufferingStart])
  else (is_buffering, [Event.bufferingUpdate percent])

namespace MediaPlayer

/-- `MediaPlayer::OnBuffering` acting on the instance's `is_buffering_`
flag. -/
def onBuffering (percent : Int) (st : State) : State × List Event :=
  let r := bufferingStep st.is_buffering percent
  ({ st with is_buffering := r.1 }, r.2)

/-- Delivering a whole sequence of buffering callbacks to a
`MediaPlayer`, concatenating the events sent. -/
def onBufferingRun (percents : List Int) (st : State) : State × List Event :=
  match percents with
  | [] => (st, [])
  | p :: rest =>
    let r := onBuffering p st
    let rRest := onBufferingRun rest r.1
    (rRest.1, r.2 ++ rRest.2)

end MediaPlayer

namespace VideoPlayer

/-- State of one `VideoPlayer` session (video_player.h / video_player.cc)
restricted to the notification logic: the `is_initialized_`,
`is_interrupted_` and `is_buffering_` flags, and whether `event_sink_`
is currently attached. -/
structure State where
  is_initialized : Bool := false
  is_interrupted : Bool := false
  event_sink : Bool := false
  is_buffering : Bool := false
deriving DecidableEq, Repr

/-- The native properties `VideoPlayer::SendInitialized` queries and the
outcomes of those queries: `player_get_duration`,
`player_get_video_size` and `player_get_display_rotation`. -/
structure MediaEnv where
  durationOk : Bool := true
  duration : Int := 0
  sizeOk : Bool := true
  width : Int := 0
  height : Int := 0
  rotationOk : Bool := true
  rotation : Rotation := .rotNone
deriving DecidableEq, Repr

/-- `VideoPlayer::SendInitialized` (video_player.cc 393-437): only when
not yet initialized, not interrupted and a sink is attached, query
duration and video size (each failure sends an error event and aborts),
query the rotation (failure sends an error event but continues without
swapping), swap width and height when the rotation is 90° or 270°, latch
`is_initialized_` and send the `initialized` event. -/
def sendInitialized (env : MediaEnv) (st : State) : State × List Event :=
  if ¬st.is_initialized ∧ ¬st.is_interrupted ∧ st.event_sink then
    if ¬env.durationOk then
      (st, [Event.error "player_get_duration failed" engineErrorMessage])
    else if ¬env.sizeOk then
      (st, [Event.error "player_get_video_size failed" engineErrorMessage])
    else
      let rotationErrs :=
        if ¬env.rotationOk then
          [Event.error "player_get_display_rotation failed" engineErrorMessage]
        else []
      let swapped :=
        env.rotationOk ∧ (env.rotation = .rot90 ∨ env.rotation = .rot270)
      let w := if swapped then env.height else env.width
      let h := if swapped then env.width else env.height
      ({ st with is_initialized := true },
        rotationErrs ++ [Event.initialized env.duration w h])
  else (st, [])

/-- `VideoPlayer::OnPrepared` (video_player.cc 492-499): the
prepared/ready callback runs `SendInitialized` only when the session is
not yet initialized. -/
def onPrepared (env : MediaEnv) (st : State) : State × List Event :=
  if ¬st.is_initialized then sendInitialized env st else (st, [])

/-- `VideoPlayer::OnBuffering` acting on the session's `is_buffering_`
flag. -/
def onBuffering (percent : Int) (st : State) : State × List Event :=
  let r := bufferingStep st.is_buffering percent
  ({ st with is_buffering := r.1 }, r.2)

/-- Delivering a whole sequence of buffering callbacks to a
`VideoPlayer`, concatenating the events sent. -/
def onBufferingRun (percents : List Int) (st : State) : State × List Event :=
  match percents with
  | [] => (st, [])
  | p :: rest =>
    let r := onBuffering p st
    let rRest := onBufferingRun rest r.1
    (rRest.1, r.2 ++ rRest.2)

end VideoPlayer

/-! ## Helper lemmas -/

/-- If a trace splits as `l₁ ++ l₂` with `a` absent from the suffix and
`b` absent from the prefix, every occurrence of `a` comes strictly
before every occurrence of `b`. -/
theorem append_occurrence_lt {α : Type} {tr l₁ l₂ : List α} {a b : α}
    (htr : tr = l₁ ++ l₂) (ha : a ∉ l₂) (hb : b ∉ l₁)
    (i j : Nat) (hi : i < tr.length) (hj : j < tr.length)
    (hia : tr.get ⟨i, hi⟩ = a) (hjb : tr.get ⟨j, hj⟩ = b) : i < j := by
  subst htr
  rcases Nat.lt_or_ge i l₁.length with hil | hil
  · rcases Nat.lt_or_ge j l₁.length with hjl | hjl
    · exfalso
      apply hb
      rw [← hjb]
      rw [List.get_eq_getElem, List.getElem_append_left hjl]
      exact List.getElem_mem _
    · omega
  · exfalso
    apply ha
    rw [← hia]
    rw [List.get_eq_getElem, List.getElem_append_right hil]
    exact List.getElem_mem _

namespace DrmManager

/-- Every action emitted by `ReleaseDrmSession` is an idle-source
removal, a finalize, or a session release — never an engine-teardown
action of either backend. -/
theorem releaseDrmSession_acts (env : ReleaseEnv) (st : State) :
    ∀ a ∈ (releaseDrmSession env st).2,
      a ≠ Act.playerDestroy ∧ a ≠ Act.destroyPlusPlayer := by
  intro a ha
  unfold releaseDrmSession at ha
  by_cases h1 : st.source_id > 0 <;>
    rcases h2 : st.drm_session with _ | s <;>
      by_cases h3 : st.initialized <;>
        by_cases h4 : env.releaseOk <;>
          simp_all <;> rcases ha with h | h | h <;> simp_all

/-- After a `ReleaseDrmSession` whose native release call succeeded, the
session handle is cleared and no idle source is pending. -/
theorem releaseDrmSession_clears (env : ReleaseEnv) (st : State)
    (h : env.releaseOk = true) :
    (releaseDrmSession env st).1.drm_session = none
    ∧ (releaseDrmSession env st).1.source_id = 0 := by
  unfold releaseDrmSession
  rcases h2 : st.drm_session with _ | s <;>
    by_cases h3 : st.initialized <;>
      by_cases h4 : env.finalizeOk <;>
        simp_all

/-- `ReleaseDrmSession` on a state with no session and no pending idle
source performs no native call at all. -/
theorem releaseDrmSession_noop (env : ReleaseEnv) (st : State)
    (hs : st.drm_session = none) (hid : st.source_id = 0) :
    (releaseDrmSession env st).2 = [] := by
  unfold releaseDrmSession
  simp [hs, hid]

/-- The private `SetChallenge` only touches the `initialized` flag: it
preserves the challenge-source fields. -/
theorem setChallengeCore_preserves (env : SetChallengeEnv) (st : State) :
    (setChallengeCore env st).2.license_server_url = st.license_server_url
    ∧ (setChallengeCore env st).2.challenge_callback = st.challenge_callback := by
  unfold setChallengeCore
  rcases h : st.drm_session with _ | s <;> simp only [h] <;> (repeat' split) <;> simp

end DrmManager

/-- The DRM-release block of either backend's `Dispose` never contains an
engine-teardown action. -/
theorem releaseActs_no_engine_teardown (env : DrmManager.ReleaseEnv)
    (d : DrmManager.State) :
    Act.playerDestroy ∉ (DrmManager.releaseDrmSession env d).2
    ∧ Act.destroyPlusPlayer ∉ (DrmManager.releaseDrmSession env d).2 := by
  constructor <;>
    · intro hmem
      rcases DrmManager.releaseDrmSession_acts env d _ hmem with ⟨h1, h2⟩
      simp_all

/-- `PlusPlayer::SetDrm` never touches the engine handle. -/
theorem plusSetDrm_player (env : PlusPlayer.SetDrmEnv) (st : PlusPlayer.State)
    (dt : Nat) (url : String) :
    (PlusPlayer.setDrm env st dt url).1.player = st.player := by
  unfold PlusPlayer.setDrm
  dsimp only
  split_ifs <;> rfl

/-- `MediaPlayer.engineTeardownActs` never contains the DRM release. -/
theorem mediaEngine_no_release (st : MediaPlayer.State) :
    Act.dmReleaseSession ∉ MediaPlayer.engineTeardownActs st := by
  unfold MediaPlayer.engineTeardownActs
  rcases h : st.player with _ | p <;> by_cases h2 : st.is_initialized <;> simp_all

/-- `MediaPlayer.proxyCloseActs` never contains the engine destroy. -/
theorem mediaProxy_no_destroy (st : MediaPlayer.State) :
    Act.playerDestroy ∉ MediaPlayer.proxyCloseActs st := by
  unfold MediaPlayer.proxyCloseActs
  rcases h : st.player_proxy with _ | p <;> simp_all

/-- `MediaPlayer.drmReleaseActs` never contains the engine destroy. -/
theorem mediaDrm_no_destroy (env : DrmManager.ReleaseEnv) (st : MediaPlayer.State) :
    Act.playerDestroy ∉ MediaPlayer.drmReleaseActs env st := by
  unfold MediaPlayer.drmReleaseActs
  rcases h : st.drm_manager with _ | d
  · simp
  · exact (releaseActs_no_engine_teardown env d).1

/-- `PlusPlayer.engineTeardownActs` never contains the DRM release. -/
theorem plusEngine_no_release (st : PlusPlayer.State) :
    Act.dmReleaseSession ∉ PlusPlayer.engineTeardownActs st := by
  unfold PlusPlayer.engineTeardownActs
  rcases h : st.player with _ | p <;> simp_all

/-- `PlusPlayer.drmReleaseActs` never contains the engine destroy. -/
theorem plusDrm_no_destroy (env : DrmManager.ReleaseEnv) (st : PlusPlayer.State) :
    Act.destroyPlusPlayer ∉ PlusPlayer.drmReleaseActs env st := by
  unfold PlusPlayer.drmReleaseActs
  rcases h : st.drm_manager with _ | d
  · simp
  · exact (releaseActs_no_engine_teardown env d).2

/-! ## Claim theorems -/

/-- Claim C8: starting from a non-buffering state, delivering the
buffering-percent sequence `[0, 3, 5, 40, 100]` to the buffering
callback of the media-player backend and of the `VideoPlayer` session
emits `bufferingStart` exactly once — at the first value ≤ 5 while not
already buffering, i.e. first in the event stream — emits
`bufferingUpdate(40)` for the value 40, emits `bufferingEnd` at 100 with
no second `bufferingStart`, and leaves the buffering flag cleared. -/
theorem buffering_sequence_events :
    (MediaPlayer.onBufferingRun [0, 3, 5, 40, 100] { is_buffering := false }).2 =
      [Event.bufferingStart, Event.bufferingUpdate 3, Event.bufferingUpdate 5,
        Event.bufferingUpdate 40, Event.bufferingEnd]
    ∧ (MediaPlayer.onBufferingRun [0, 3, 5, 40, 100]
        { is_buffering := false }).2.count Event.bufferingStart = 1
    ∧ (MediaPlayer.onBufferingRun [0, 3, 5, 40, 100]
        { is_buffering := false }).1.is_buffering = false
    ∧ (VideoPlayer.onBufferingRun [0, 3, 5, 40, 100]
        { event_sink := true, is_buffering := false }).2 =
      [Event.bufferingStart, Event.bufferingUpdate 3, Event.bufferingUpdate 5,
        Event.bufferingUpdate 40, Event.bufferingEnd]
    ∧ (VideoPlayer.onBufferingRun [0, 3, 5, 40, 100]
        { event_sink := true, is_buffering := false }).2.count Event.bufferingStart = 1
    ∧ (VideoPlayer.onBufferingRun [0, 3, 5, 40, 100]
        { event_sink := true, is_buffering := false }).1.is_buffering = false := by
  decide

/-- Claim C1 counterexample: on the media-player backend, a second
`SeekTo` issued while a seek-completed callback (token 1) is still
pending is not rejected — it returns normally and silently replaces the
pending completion callback with the new one (token 2). -/
theorem mediaPlayer_second_seek_overwrites_cex :
    (MediaPlayer.seekTo
      { player := some 1, on_seek_completed := some 1 } 2 true).2 = .ok ()
    ∧ (MediaPlayer.seekTo
        { player := some 1, on_seek_completed := some 1 } 2 true).1.on_seek_completed
        = some 2 := by
  exact ⟨rfl, rfl⟩

/-- Claim C1 (amended): only the plus-player backend rejects a second
`SeekTo` while one is outstanding, with the typed
`"Invalid Operation" / "PlusPlayer is already seeking"` failure, leaving
the pending completion callback (and the whole state) unchanged; the
media-player backend performs no pending-seek check — its `SeekTo`
returns normally and replaces the pending completion callback. -/
theorem seekTo_pending_gating
    (stP : PlusPlayer.State) (p c cb : Nat) (engState : PlusState) (seekOk : Bool)
    (hp : stP.player = some p) (hc : stP.on_seek_completed = some c)
    (stM : MediaPlayer.State) (c' cb' : Nat)
    (hcM : stM.on_seek_completed = some c') :
    PlusPlayer.seekTo stP cb engState seekOk =
      (stP, .error ⟨"Invalid Operation", "PlusPlayer is already seeking"⟩)
    ∧ (MediaPlayer.seekTo stM cb' true).2 = .ok ()
    ∧ (MediaPlayer.seekTo stM cb' true).1.on_seek_completed = some cb' := by
  refine ⟨?_, ?_, ?_⟩
  · unfold PlusPlayer.seekTo
    rw [hp, hc]
  · unfold MediaPlayer.seekTo
    simp
  · unfold MediaPlayer.seekTo
    simp

/-- Claim C1 witness. -/
theorem seekTo_pending_gating_witness :
    PlusPlayer.seekTo { player := some 1, on_seek_completed := some 3 } 4 .kReady true =
      ({ player := some 1, on_seek_completed := some 3 },
        .error ⟨"Invalid Operation", "PlusPlayer is already seeking"⟩)
    ∧ (MediaPlayer.seekTo { on_seek_completed := some 5 } 6 true).2 = .ok ()
    ∧ (MediaPlayer.seekTo { on_seek_completed := some 5 } 6 true).1.on_seek_completed
      = some 6 :=
  seekTo_pending_gating
    { player := some 1, on_seek_completed := some 3 } 1 3 4 .kReady true rfl rfl
    { on_seek_completed := some 5 } 5 6 rfl

/-- Claim C5 counterexample: on the plus-player backend, `Play` invoked
while the engine state is below ready (here `kIdle`) does not return
normally — it raises the typed `"Invalid State"` failure. -/
theorem plusPlayer_play_below_ready_error_cex :
    (PlusPlayer.play { player := some 1 } .kIdle true true).1 =
      .error ⟨"Invalid State", "PlusPlayer is not ready"⟩
    ∧ (PlusPlayer.play { player := some 1 } .kIdle true true).1 ≠ .ok () := by
  refine ⟨rfl, ?_⟩
  intro h
  simp [PlusPlayer.play, PlusState.rank] at h

/-- Claim C5 (amended): on the media-player backend, `Play` with a
successful state query is a no-op returning normally whenever the state
is neither paused nor ready (which covers both below-ready and already
playing), and issues the start command from ready or paused; on the
plus-player backend, `Play` when already playing is a no-op returning
normally, `Play` from ready starts, `Play` from paused resumes, but
`Play` below ready raises the typed `"Invalid State"` failure instead of
being a no-op. -/
theorem play_gating
    (stM : MediaPlayer.State) (s : PlayerState) (startOk : Bool)
    (hs : s ≠ .paused ∧ s ≠ .ready)
    (stP : PlusPlayer.State) (p : Nat) (hp : stP.player = some p)
    (s' : PlusState) (hs' : s'.rank < PlusState.rank .kReady)
    (startOk' resumeOk' : Bool) :
    MediaPlayer.play stM s true startOk = (.ok (), [])
    ∧ MediaPlayer.play stM .ready true true = (.ok (), [Act.playerStart])
    ∧ MediaPlayer.play stM .paused true true = (.ok (), [Act.playerStart])
    ∧ PlusPlayer.play stP s' startOk' resumeOk' =
        (.error ⟨"Invalid State", "PlusPlayer is not ready"⟩, [])
    ∧ PlusPlayer.play stP .kPlaying startOk' resumeOk' = (.ok (), [])
    ∧ PlusPlayer.play stP .kReady true resumeOk' = (.ok (), [Act.plusStart])
    ∧ PlusPlayer.play stP .kPaused startOk' true = (.ok (), [Act.plusResume]) := by
  refine ⟨?_, ?_, ?_, ?_, ?_, ?_, ?_⟩
  · unfold MediaPlayer.play
    rw [if_pos ⟨rfl, hs.1, hs.2⟩]
  · unfold MediaPlayer.play
    simp
  · unfold MediaPlayer.play
    simp
  · unfold PlusPlayer.play
    rw [hp]
    simp only [if_pos hs']
  · unfold PlusPlayer.play
    rw [hp]
    rfl
  · unfold PlusPlayer.play
    rw [hp]
    rfl
  · unfold PlusPlayer.play
    rw [hp]
    rfl

/-- Claim C5 witness. -/
theorem play_gating_witness :
    MediaPlayer.play {} .idle true false = (.ok (), [])
    ∧ MediaPlayer.play {} .ready true true = (.ok (), [Act.playerStart])
    ∧ MediaPlayer.play {} .paused true true = (.ok (), [Act.playerStart])
    ∧ PlusPlayer.play { player := some 1 } .kIdle false false =
        (.error ⟨"Invalid State", "PlusPlayer is not ready"⟩, [])
    ∧ PlusPlayer.play { player := some 1 } .kPlaying false false = (.ok (), [])
    ∧ PlusPlayer.play { player := some 1 } .kReady true false = (.ok (), [Act.plusStart])
    ∧ PlusPlayer.play { player := some 1 } .kPaused false true =
        (.ok (), [Act.plusResume]) :=
  play_gating {} .idle false (by simp) { player := some 1 } 1 rfl .kIdle (by decide)
    false false

/-- Claim C6 counterexample: on an instance of the plus-player backend
whose engine handle is live (handle 5, i.e. a first `Create` succeeded),
a second `Create` does not raise a terminal error — with all native
calls succeeding it returns normally and installs a second, fresh engine
handle (handle 1) over the first. -/
theorem plusPlayer_create_twice_cex :
    (PlusPlayer.create {} { player := some 5 } 0 "").2 = .ok 1
    ∧ (PlusPlayer.create {} { player := some 5 } 0 "").1.player = some 1 := by
  exact ⟨rfl, rfl⟩

/-- Claim C6 (amended): only the media-player backend makes `Create`
one-shot — a second `Create` on an instance whose handle is live raises
the typed `"Operation failed"` error and changes nothing; the
plus-player backend performs no such check: whenever the native
`CreatePlayer` call yields a handle, `Create` on an already-created
instance stores that second, fresh engine handle over the first. -/
theorem create_one_shot_gating
    (envM : MediaPlayer.CreateEnv) (stM : MediaPlayer.State) (p : Nat)
    (hp : stM.player = some p) (dt : Nat) (url : String)
    (envP : PlusPlayer.CreateEnv) (stP : PlusPlayer.State) (q hNew : Nat)
    (hq : stP.player = some q) (hcp : envP.createdPlayer = some hNew)
    (dt' : Nat) (url' : String) :
    MediaPlayer.create envM stM dt url =
      (stM, .error ⟨"Operation failed", "Media player has already been created"⟩)
    ∧ (PlusPlayer.create envP stP dt' url').1.player = some hNew := by
  constructor
  · unfold MediaPlayer.create
    rw [if_pos (by rw [hp]; rfl)]
  · unfold PlusPlayer.create
    rw [hcp]
    dsimp only
    split_ifs <;> first
      | rfl
      | (split <;> simp [plusSetDrm_player])

/-- Claim C6 witness. -/
theorem create_one_shot_gating_witness :
    MediaPlayer.create {} { player := some 7 } 0 "" =
      ({ player := some 7 },
        .error ⟨"Operation failed", "Media player has already been created"⟩)
    ∧ (PlusPlayer.create {} { player := some 5 } 0 "x").1.player = some 1 :=
  create_one_shot_gating {} { player := some 7 } 7 rfl 0 ""
    {} { player := some 5 } 5 1 rfl rfl 0 "x"

/-- Claim C2: for either backend, `Dispose` clears the engine handle,
and in its action trace every engine-destroy action occurs strictly
before every DRM-session release action: the DRM release never happens
while the engine handle is still live. -/
theorem dispose_teardown_before_drm_release
    (env : DrmManager.ReleaseEnv) (stM : MediaPlayer.State) (stP : PlusPlayer.State) :
    (MediaPlayer.dispose env stM).1.player = none
    ∧ (∀ i j (hi : i < (MediaPlayer.dispose env stM).2.length)
        (hj : j < (MediaPlayer.dispose env stM).2.length),
        (MediaPlayer.dispose env stM).2.get ⟨i, hi⟩ = Act.playerDestroy →
        (MediaPlayer.dispose env stM).2.get ⟨j, hj⟩ = Act.dmReleaseSession →
        i < j)
    ∧ (PlusPlayer.dispose env stP).1.player = none
    ∧ (∀ i j (hi : i < (PlusPlayer.dispose env stP).2.length)
        (hj : j < (PlusPlayer.dispose env stP).2.length),
        (PlusPlayer.dispose env stP).2.get ⟨i, hi⟩ = Act.destroyPlusPlayer →
        (PlusPlayer.dispose env stP).2.get ⟨j, hj⟩ = Act.dmReleaseSession →
        i < j) := by
  refine ⟨rfl, ?_, rfl, ?_⟩
  · intro i j hi hj hia hjb
    have htr : (MediaPlayer.dispose env stM).2 =
        (MediaPlayer.engineTeardownActs stM ++ MediaPlayer.proxyCloseActs stM) ++
          MediaPlayer.drmReleaseActs env stM := rfl
    refine append_occurrence_lt htr (mediaDrm_no_destroy env stM) ?_ i j hi hj hia hjb
    rw [List.mem_append]
    rintro (h | h)
    · exact mediaEngine_no_release stM h
    · unfold MediaPlayer.proxyCloseActs at h
      rcases h2 : stM.player_proxy with _ | pr <;> simp_all
  · intro i j hi hj hia hjb
    have htr : (PlusPlayer.dispose env stP).2 =
        PlusPlayer.engineTeardownActs stP ++ PlusPlayer.drmReleaseActs env stP := rfl
    exact append_occurrence_lt htr (plusDrm_no_destroy env stP)
      (plusEngine_no_release stP) i j hi hj hia hjb

/-- Claim C2 witness: applying the ordering to a concrete disposal whose
trace is `[playerDestroy, dmReleaseSession]` (resp.
`[unregisterListener, destroyPlusPlayer, dmReleaseSession]`). -/
theorem dispose_teardown_before_drm_release_witness :
    (0 : Nat) < 1 ∧ (1 : Nat) < 2 :=
  ⟨(dispose_teardown_before_drm_release {}
      { player := some 1, drm_manager := some { drm_session := some 2 } }
      { player := some 1, drm_manager := some { drm_session := some 2 } }).2.1
      0 1 (by decide) (by decide) (by decide) (by decide),
    (dispose_teardown_before_drm_release {}
      { player := some 1, drm_manager := some { drm_session := some 2 } }
      { player := some 1, drm_manager := some { drm_session := some 2 } }).2.2.2
      1 2 (by decide) (by decide) (by decide) (by decide)⟩

/-- Claim C3: for either backend, a second `Dispose` right after one
whose DRM-release call succeeded performs no native teardown at all
(empty action trace): the engine handle is already null so engine
teardown is skipped, and the DRM release on the already-released session
is a no-op. `Dispose` on a freshly constructed instance (before `Create`
has completed) likewise performs no teardown, and a repeated
`ReleaseDrmSession` on an already-released `DrmManager` is a no-op —
so nothing is ever freed twice. -/
theorem dispose_idempotent_no_double_free
    (env1 env2 : DrmManager.ReleaseEnv) (h : env1.releaseOk = true)
    (stM : MediaPlayer.State) (stP : PlusPlayer.State) (d : DrmManager.State) :
    (MediaPlayer.dispose env2 (MediaPlayer.dispose env1 stM).1).2 = []
    ∧ (PlusPlayer.dispose env2 (PlusPlayer.dispose env1 stP).1).2 = []
    ∧ (MediaPlayer.dispose env1 ({} : MediaPlayer.State)).2 = []
    ∧ (PlusPlayer.dispose env1 ({} : PlusPlayer.State)).2 = []
    ∧ (DrmManager.releaseDrmSession env2 (DrmManager.releaseDrmSession env1 d).1).2
      = [] := by
  refine ⟨?_, ?_, rfl, rfl, ?_⟩
  · unfold MediaPlayer.dispose MediaPlayer.engineTeardownActs
      MediaPlayer.proxyCloseActs MediaPlayer.drmReleaseActs
    rcases hdm : stM.drm_manager with _ | d0
    · simp
    · simp only [Option.map_some, Option.isSome_none, List.append_nil]
      simp [DrmManager.releaseDrmSession_noop env2 _
        (DrmManager.releaseDrmSession_clears env1 d0 h).1
        (DrmManager.releaseDrmSession_clears env1 d0 h).2]
  · unfold PlusPlayer.dispose PlusPlayer.engineTeardownActs PlusPlayer.drmReleaseActs
    rcases hdm : stP.drm_manager with _ | d0
    · simp
    · simp [DrmManager.releaseDrmSession_noop env2 _
        (DrmManager.releaseDrmSession_clears env1 d0 h).1
        (DrmManager.releaseDrmSession_clears env1 d0 h).2]
  · exact DrmManager.releaseDrmSession_noop env2 _
      (DrmManager.releaseDrmSession_clears env1 d h).1
      (DrmManager.releaseDrmSession_clears env1 d h).2

/-- Claim C3 witness. -/
theorem dispose_idempotent_no_double_free_witness :
    (MediaPlayer.dispose {}
      (MediaPlayer.dispose {}
        { player := some 1, is_initialized := true,
          drm_manager := some { drm_session := some 2, initialized := true } }).1).2 = []
    ∧ (PlusPlayer.dispose {}
        (PlusPlayer.dispose {}
          { player := some 1,
            drm_manager := some { drm_session := some 2, initialized := true } }).1).2 = []
    ∧ (MediaPlayer.dispose {} ({} : MediaPlayer.State)).2 = []
    ∧ (PlusPlayer.dispose {} ({} : PlusPlayer.State)).2 = []
    ∧ (DrmManager.releaseDrmSession {}
        (DrmManager.releaseDrmSession {} { drm_session := some 2 }).1).2 = [] :=
  dispose_idempotent_no_double_free {} {} rfl
    { player := some 1, is_initialized := true,
      drm_manager := some { drm_session := some 2, initialized := true } }
    { player := some 1, drm_manager := some { drm_session := some 2, initialized := true } }
    { drm_session := some 2 }

/-- Claim C4: whenever the response obtained for a challenge is null or
zero-length — from the license-server network path, from the configured
delegate, or because no resolution path is configured at all — the
challenge-data handler returns `DM_ERROR_INTERNAL_ERROR` and never
schedules a key install. -/
theorem challenge_empty_response_fails
    (env : DrmManager.ChallengeEnv) (st : DrmManager.State) (sid : Nat)
    (msg : List Nat)
    (h : DrmManager.obtainedResponse env st = none
      ∨ DrmManager.obtainedResponse env st = some []) :
    (DrmManager.onChallengeData env st sid msg).1 = .internalError
    ∧ Act.scheduleInstall ∉ (DrmManager.onChallengeData env st sid msg).2.2 := by
  unfold DrmManager.obtainedResponse at h
  unfold DrmManager.onChallengeData
  by_cases hurl : st.license_server_url ≠ ""
  · rw [if_pos hurl] at h
    rcases hsucc : env.net.success <;>
      rcases hresp : env.net.respData with _ | resp <;>
        simp_all
  · rw [if_neg hurl] at h
    rcases hcb : st.challenge_callback with _ | cb <;>
      rcases hresp : env.delegateResp with _ | resp <;>
        simp_all

/-- Claim C4 witness: a configured delegate that writes a zero-length
response yields `DM_ERROR_INTERNAL_ERROR` with no install scheduled. -/
theorem challenge_empty_response_fails_witness :
    (DrmManager.onChallengeData { delegateResp := some [] }
      { challenge_callback := some 1 } 3 [7]).1 = .internalError
    ∧ Act.scheduleInstall ∉ (DrmManager.onChallengeData { delegateResp := some [] }
        { challenge_callback := some 1 } 3 [7]).2.2 :=
  challenge_empty_response_fails { delegateResp := some [] }
    { challenge_callback := some 1 } 3 [7] (Or.inr rfl)

/-- Claim C9: for a challenge whose obtained response is non-empty, the
response buffer is freed exactly once: if scheduling the deferred
install fails (`g_idle_add` returned 0) the handler frees it immediately
and schedules nothing; otherwise the handler itself frees nothing,
schedules the deferred install, and the deferred `InstallEMEKey` task —
whatever the install call's own outcome — performs the install action
and then exactly one free, in that order. -/
theorem response_buffer_freed_once
    (env : DrmManager.ChallengeEnv) (st : DrmManager.State) (sid : Nat)
    (msg : List Nat) (resp : List Nat)
    (h : DrmManager.obtainedResponse env st = some resp) (hne : resp ≠ []) :
    (env.idleAddId = 0 →
      (DrmManager.onChallengeData env st sid msg).2.2.count Act.freeResponse = 1
      ∧ Act.scheduleInstall ∉ (DrmManager.onChallengeData env st sid msg).2.2
      ∧ (DrmManager.onChallengeData env st sid msg).1 = .internalError)
    ∧ (env.idleAddId ≠ 0 →
      (DrmManager.onChallengeData env st sid msg).2.2.count Act.freeResponse = 0
      ∧ Act.scheduleInstall ∈ (DrmManager.onChallengeData env st sid msg).2.2
      ∧ (DrmManager.onChallengeData env st sid msg).1 = .noError
      ∧ ∀ ienv : DrmManager.InstallEnv,
          (DrmManager.installEMEKey ienv
            (DrmManager.onChallengeData env st sid msg).2.1).2.2 =
            [Act.installEmeKey, Act.freeResponse]) := by
  have hlen : ¬resp.length = 0 := by
    intro hl
    exact hne (List.length_eq_zero.mp hl)
  unfold DrmManager.obtainedResponse at h
  unfold DrmManager.onChallengeData DrmManager.installEMEKey
  by_cases hid : env.idleAddId = 0 <;>
    by_cases hurl : st.license_server_url ≠ "" <;>
      [rw [if_pos hurl] at h; rw [if_neg hurl] at h;
        rw [if_pos hurl] at h; rw [if_neg hurl] at h] <;>
      rcases hsucc : env.net.success <;>
        rcases hresp : env.net.respData with _ | r <;>
          rcases hcb : st.challenge_callback with _ | cb <;>
            rcases hdel : env.delegateResp with _ | r' <;>
              simp_all

/-- Claim C9 witness: a delegate-supplied one-byte response with
successful scheduling (`g_idle_add` id 1): the handler frees nothing and
schedules the install, and the deferred task installs then frees. -/
theorem response_buffer_freed_once_witness :
    (DrmManager.onChallengeData { delegateResp := some [9], idleAddId := 1 }
      { challenge_callback := some 1 } 3 [7]).2.2.count Act.freeResponse = 0
    ∧ Act.scheduleInstall ∈ (DrmManager.onChallengeData
        { delegateResp := some [9], idleAddId := 1 }
        { challenge_callback := some 1 } 3 [7]).2.2
    ∧ (DrmManager.onChallengeData { delegateResp := some [9], idleAddId := 1 }
        { challenge_callback := some 1 } 3 [7]).1 = .noError
    ∧ (DrmManager.installEMEKey {}
        (DrmManager.onChallengeData { delegateResp := some [9], idleAddId := 1 }
          { challenge_callback := some 1 } 3 [7]).2.1).2.2 =
        [Act.installEmeKey, Act.freeResponse]
    ∧ (DrmManager.installEMEKey { installRet := .internalError }
        (DrmManager.onChallengeData { delegateResp := some [9], idleAddId := 1 }
          { challenge_callback := some 1 } 3 [7]).2.1).2.2 =
        [Act.installEmeKey, Act.freeResponse] := by
  have h := (response_buffer_freed_once { delegateResp := some [9], idleAddId := 1 }
    { challenge_callback := some 1 } 3 [7] [9] rfl (by decide)).2 (by decide)
  exact ⟨h.1, h.2.1, h.2.2.1, h.2.2.2 {}, h.2.2.2 { installRet := .internalError }⟩

/-- Claim C10: configuring one challenge source does not clear the
other — `SetChallenge(url)` leaves the stored delegate untouched and
`SetChallenge(callback)` leaves the stored URL untouched — and whenever
a non-empty license-server URL is configured, the challenge handler
resolves the challenge through the network transaction and never
invokes the delegate, whatever the delegate field holds. -/
theorem challenge_source_priority
    (env : DrmManager.ChallengeEnv) (st : DrmManager.State) (sid : Nat)
    (msg : List Nat) (hurl : st.license_server_url ≠ "")
    (cenv : DrmManager.SetChallengeEnv) (st2 : DrmManager.State)
    (url : String) (cb : Nat) :
    Act.invokeDelegate ∉ (DrmManager.onChallengeData env st sid msg).2.2
    ∧ Act.netTransact ∈ (DrmManager.onChallengeData env st sid msg).2.2
    ∧ (DrmManager.setChallengeUrl cenv st2 url).2.challenge_callback
      = st2.challenge_callback
    ∧ (DrmManager.setChallengeCallback cenv st2 cb).2.license_server_url
      = st2.license_server_url := by
  refine ⟨?_, ?_, ?_, ?_⟩
  · unfold DrmManager.onChallengeData
    rw [if_pos hurl]
    rcases hsucc : env.net.success
    · simp
    · rcases hresp : env.net.respData with _ | r
      · simp
      · by_cases hlen : r.length = 0 <;> by_cases hid : env.idleAddId = 0 <;> simp_all
  · unfold DrmManager.onChallengeData
    rw [if_pos hurl]
    rcases hsucc : env.net.success
    · simp
    · rcases hresp : env.net.respData with _ | r
      · simp
      · by_cases hlen : r.length = 0 <;> by_cases hid : env.idleAddId = 0 <;> simp_all
  · unfold DrmManager.setChallengeUrl
    dsimp only
    rw [(DrmManager.setChallengeCore_preserves cenv
      { st2 with license_server_url := url }).2]
  · unfold DrmManager.setChallengeCallback
    dsimp only
    rw [(DrmManager.setChallengeCore_preserves cenv
      { st2 with challenge_callback := some cb }).1]

/-- Claim C10 witness: both sources set; the network path is taken, the
delegate is never invoked, and neither setter clears the other field. -/
theorem challenge_source_priority_witness :
    Act.invokeDelegate ∉ (DrmManager.onChallengeData
      { net := { respData := some [9] }, delegateResp := some [4] }
      { license_server_url := "https://ls", challenge_callback := some 1 } 3 [7]).2.2
    ∧ Act.netTransact ∈ (DrmManager.onChallengeData
        { net := { respData := some [9] }, delegateResp := some [4] }
        { license_server_url := "https://ls", challenge_callback := some 1 } 3 [7]).2.2
    ∧ (DrmManager.setChallengeUrl {}
        { license_server_url := "https://ls", challenge_callback := some 1 }
        "https://ls2").2.challenge_callback = some 1
    ∧ (DrmManager.setChallengeCallback {}
        { license_server_url := "https://ls", challenge_callback := some 1 }
        2).2.license_server_url = "https://ls" := by
  have h := challenge_source_priority
    { net := { respData := some [9] }, delegateResp := some [4] }
    { license_server_url := "https://ls", challenge_callback := some 1 } 3 [7]
    (by decide) {}
    { license_server_url := "https://ls", challenge_callback := some 1 }
    "https://ls2" 2
  exact ⟨h.1, h.2.1, h.2.2.1, h.2.2.2⟩

/-- Claim C7: on a live session (sink attached, not interrupted, not yet
initialized) whose native queries succeed, the first ready/prepared
callback emits exactly one `initialized` event carrying the native
duration and the native width and height swapped exactly when the
display rotation is 90° or 270°; the session latches its initialized
flag, any later prepared callback emits nothing, and the media-player
backend's `GetVideoSize` applies the same swap rule. -/
theorem initialized_once_rotation_swap
    (st : VideoPlayer.State) (env env2 : VideoPlayer.MediaEnv)
    (h1 : st.is_initialized = false) (h2 : st.is_interrupted = false)
    (h3 : st.event_sink = true) (hd : env.durationOk = true)
    (hs : env.sizeOk = true) (hr : env.rotationOk = true) :
    (VideoPlayer.onPrepared env st).2 =
      [Event.initialized env.duration
        (if env.rotation = .rot90 ∨ env.rotation = .rot270 then env.height else env.width)
        (if env.rotation = .rot90 ∨ env.rotation = .rot270 then env.width else env.height)]
    ∧ (VideoPlayer.onPrepared env st).1.is_initialized = true
    ∧ (VideoPlayer.onPrepared env2 (VideoPlayer.onPrepared env st).1).2 = []
    ∧ (∀ (w h : Int) (r : Rotation), r = .rot90 ∨ r = .rot270 →
        MediaPlayer.getVideoSize true w h true r = .ok (h, w))
    ∧ (∀ (w h : Int) (r : Rotation), ¬(r = .rot90 ∨ r = .rot270) →
        MediaPlayer.getVideoSize true w h true r = .ok (w, h)) := by
  refine ⟨?_, ?_, ?_, ?_, ?_⟩
  · unfold VideoPlayer.onPrepared VideoPlayer.sendInitialized
    by_cases hrot : env.rotation = .rot90 ∨ env.rotation = .rot270 <;>
      simp_all
  · unfold VideoPlayer.onPrepared VideoPlayer.sendInitialized
    simp_all
  · unfold VideoPlayer.onPrepared VideoPlayer.sendInitialized
    simp_all
  · intro w h r hrot
    unfold MediaPlayer.getVideoSize
    simp [hrot]
  · intro w h r hrot
    unfold MediaPlayer.getVideoSize
    simp [hrot]

/-- Claim C7 witness: native size 1920×1080 at 90° rotation is reported
as `initialized` with 1080×1920, exactly once. -/
theorem initialized_once_rotation_swap_witness :
    (VideoPlayer.onPrepared
      { duration := 5000, width := 1920, height := 1080, rotation := .rot90 }
      { event_sink := true }).2 = [Event.initialized 5000 1080 1920]
    ∧ (VideoPlayer.onPrepared
        { duration := 5000, width := 1920, height := 1080, rotation := .rot90 }
        { event_sink := true }).1.is_initialized = true
    ∧ (VideoPlayer.onPrepared {}
        (VideoPlayer.onPrepared
          { duration := 5000, width := 1920, height := 1080, rotation := .rot90 }
          { event_sink := true }).1).2 = []
    ∧ MediaPlayer.getVideoSize true 1920 1080 true .rot90 = .ok (1080, 1920) := by
  have h := initialized_once_rotation_swap { event_sink := true }
    { duration := 5000, width := 1920, height := 1080, rotation := .rot90 } {}
    rfl rfl rfl rfl rfl rfl
  exact ⟨h.1, h.2.1, h.2.2.1, h.2.2.2.1 1920 1080 .rot90 (Or.inl rfl)⟩

end Videohole
